import Mathlib

/-!
Verification of the NHS MESH CLI client (`src/main.rs`).

The development shallowly embeds the token-construction and request code of
the client.  Pure string formatting is translated directly; the ambient
effects consulted by `generate_token` (the freshly drawn UUID v4 nonce and
the formatted UTC wall-clock time, `main.rs` lines 203 and 206) are made
explicit as an `Effects` record; HTTP responses are explicit inputs; Rust
panics (`expect`, `unwrap`, `unwrap_err`) are modelled with `Option`, where
`none` is the panic.  The HMAC-SHA256 primitive called through the `hmac`
and `sha2` crates is embedded by its standard definition (FIPS 180-4 and
RFC 2104), computably, over byte lists.
-/

/-! ## Bytes and 32-bit words as naturals -/

/-- Keep a natural in the range of a 32-bit machine word. -/
def w32 (n : Nat) : Nat := n % 4294967296

/-- 32-bit modular addition. -/
def add32 (a b : Nat) : Nat := (a + b) % 4294967296

/-- Bitwise complement of a 32-bit word. -/
def not32 (a : Nat) : Nat := Nat.xor a 4294967295

/-- Right rotation of a 32-bit word by `n` places. -/
def rotr32 (n a : Nat) : Nat := a / 2 ^ n + a % 2 ^ n * 2 ^ (32 - n)

/-- Logical right shift of a 32-bit word. -/
def shr32 (n a : Nat) : Nat := a / 2 ^ n

/-! ## SHA-256 (FIPS 180-4), as called through the `sha2` crate -/

/-- The eight-word SHA-256 working state / chaining value. -/
structure Hash8 where
  a : Nat
  b : Nat
  c : Nat
  d : Nat
  e : Nat
  f : Nat
  g : Nat
  h : Nat
deriving Repr, DecidableEq

/-- SHA-256 initial hash value (FIPS 180-4, 5.3.3). -/
def sha256Init : Hash8 :=
  ⟨1779033703, 3144134277, 1013904242, 2773480762,
   1359893119, 2600822924, 528734635, 1541459225⟩

/-- SHA-256 round constants (FIPS 180-4, 4.2.2). -/
def sha256K : List Nat :=
  [1116352408, 1899447441, 3049323471, 3921009573, 961987163,
   1508970993, 2453635748, 2870763221, 3624381080, 310598401,
   607225278, 1426881987, 1925078388, 2162078206, 2614888103,
   3248222580, 3835390401, 4022224774, 264347078, 604807628,
   770255983, 1249150122, 1555081692, 1996064986, 2554220882,
   2821834349, 2952996808, 3210313671, 3336571891, 3584528711,
   113926993, 338241895, 666307205, 773529912, 1294757372,
   1396182291, 1695183700, 1986661051, 2177026350, 2456956037,
   2730485921, 2820302411, 3259730800, 3345764771, 3516065817,
   3600352804, 4094571909, 275423344, 430227734, 506948616,
   659060556, 883997877, 958139571, 1322822218, 1537002063,
   1747873779, 1955562222, 2024104815, 2227730452, 2361852424,
   2428436474, 2756734187, 3204031479, 3329325298]

/-- Choose function (FIPS 180-4, 4.2). -/
def ch32 (x y z : Nat) : Nat := Nat.xor (Nat.land x y) (Nat.land (not32 x) z)

/-- Majority function (FIPS 180-4, 4.2). -/
def maj32 (x y z : Nat) : Nat :=
  Nat.xor (Nat.xor (Nat.land x y) (Nat.land x z)) (Nat.land y z)

/-- Big sigma-0 (FIPS 180-4, 4.4). -/
def bigSigma0 (x : Nat) : Nat := Nat.xor (Nat.xor (rotr32 2 x) (rotr32 13 x)) (rotr32 22 x)

/-- Big sigma-1 (FIPS 180-4, 4.5). -/
def bigSigma1 (x : Nat) : Nat := Nat.xor (Nat.xor (rotr32 6 x) (rotr32 11 x)) (rotr32 25 x)

/-- Small sigma-0 (FIPS 180-4, 4.6). -/
def smallSigma0 (x : Nat) : Nat := Nat.xor (Nat.xor (rotr32 7 x) (rotr32 18 x)) (shr32 3 x)

/-- Small sigma-1 (FIPS 180-4, 4.7). -/
def smallSigma1 (x : Nat) : Nat := Nat.xor (Nat.xor (rotr32 17 x) (rotr32 19 x)) (shr32 10 x)

/-- Assemble big-endian 32-bit words from a list of bytes (fuelled structural
recursion; the fuel is the list length, ample since each step consumes four
bytes). -/
def bytesToWordsAux : Nat → List Nat → List Nat
  | _, [] => []
  | 0, _ => []
  | fuel + 1, b0 :: b1 :: b2 :: b3 :: rest =>
      (b0 * 16777216 + b1 * 65536 + b2 * 256 + b3) :: bytesToWordsAux fuel rest
  | _ + 1, _ => []

/-- Big-endian 32-bit words of a byte list whose length is a multiple of 4. -/
def bytesToWords (bs : List Nat) : List Nat := bytesToWordsAux bs.length bs

/-- Extend a 16-word block to the 64-word SHA-256 message schedule: each step
appends `σ1 w[t-2] + w[t-7] + σ0 w[t-15] + w[t-16]`. -/
def extendSchedule : Nat → List Nat → List Nat
  | 0, ws => ws
  | n + 1, ws =>
      extendSchedule n (ws ++ [add32 (add32 (smallSigma1 (ws.getD (ws.length - 2) 0))
                                            (ws.getD (ws.length - 7) 0))
                                    (add32 (smallSigma0 (ws.getD (ws.length - 15) 0))
                                           (ws.getD (ws.length - 16) 0))])

/-- The 64-entry message schedule of one 64-byte block. -/
def msgSchedule (block : List Nat) : List Nat := extendSchedule 48 (bytesToWords block)

/-- One SHA-256 compression round: state update for round constant `k` and
schedule word `w` (FIPS 180-4, 6.2.2 step 3). -/
def sha256Round (s : Hash8) (kw : Nat × Nat) : Hash8 :=
  let t1 := add32 (add32 (add32 s.h (bigSigma1 s.e)) (ch32 s.e s.f s.g)) (add32 kw.1 kw.2)
  let t2 := add32 (bigSigma0 s.a) (maj32 s.a s.b s.c)
  ⟨add32 t1 t2, s.a, s.b, s.c, add32 s.d t1, s.e, s.f, s.g⟩

/-- Pointwise 32-bit addition of two eight-word states. -/
def addHash8 (x y : Hash8) : Hash8 :=
  ⟨add32 x.a y.a, add32 x.b y.b, add32 x.c y.c, add32 x.d y.d,
   add32 x.e y.e, add32 x.f y.f, add32 x.g y.g, add32 x.h y.h⟩

/-- Process one 64-byte block (FIPS 180-4, 6.2.2). -/
def sha256Compress (h0 : Hash8) (block : List Nat) : Hash8 :=
  addHash8 h0 ((sha256K.zip (msgSchedule block)).foldl sha256Round h0)

/-- Split a byte list into 64-byte blocks (fuelled structural recursion). -/
def toBlocksAux : Nat → List Nat → List (List Nat)
  | _, [] => []
  | 0, _ => []
  | fuel + 1, l => l.take 64 :: toBlocksAux fuel (l.drop 64)

/-- The 64-byte blocks of a byte list. -/
def toBlocks (l : List Nat) : List (List Nat) := toBlocksAux l.length l

/-- Big-endian bytes of a 64-bit length field (FIPS 180-4, 5.1.1). -/
def lenBytes64 (n : Nat) : List Nat :=
  [n / 2 ^ 56 % 256, n / 2 ^ 48 % 256, n / 2 ^ 40 % 256, n / 2 ^ 32 % 256,
   n / 2 ^ 24 % 256, n / 2 ^ 16 % 256, n / 2 ^ 8 % 256, n % 256]

/-- SHA-256 padding: a 0x80 byte, zeros to 56 mod 64, then the bit length. -/
def sha256Pad (msg : List Nat) : List Nat :=
  msg ++ 128 :: List.replicate ((64 - (msg.length + 9) % 64) % 64) 0
      ++ lenBytes64 (8 * msg.length)

/-- Big-endian bytes of a 32-bit word. -/
def wordBytes (x : Nat) : List Nat :=
  [x / 2 ^ 24 % 256, x / 2 ^ 16 % 256, x / 2 ^ 8 % 256, x % 256]

/-- The 32 digest bytes of a final state (FIPS 180-4, 6.2.2 output). -/
def hash8Bytes (s : Hash8) : List Nat :=
  wordBytes s.a ++ wordBytes s.b ++ wordBytes s.c ++ wordBytes s.d ++
  wordBytes s.e ++ wordBytes s.f ++ wordBytes s.g ++ wordBytes s.h

/-- SHA-256 of a byte list, as 32 digest bytes. -/
def sha256 (msg : List Nat) : List Nat :=
  hash8Bytes ((toBlocks (sha256Pad msg)).foldl sha256Compress sha256Init)

/-! ## HMAC (RFC 2104), as called through the `hmac` crate -/

/-- HMAC key normalisation: a key longer than the 64-byte SHA-256 block is
hashed, then the result is zero-padded to the block size.  Total for every
key length — this is why `Hmac::<Sha256>::new_from_slice` never fails. -/
def hmacNormKey (key : List Nat) : List Nat :=
  let k0 := if 64 < key.length then sha256 key else key
  k0 ++ List.replicate (64 - k0.length) 0

/-- The `hmac` crate's `new_from_slice`: accepts a key of any length, so it
returns the normalised key unconditionally (`none` would be the `InvalidLength`
error; it is never produced for a block-hash MAC). -/
def hmac_new_from_slice (key : List Nat) : Option (List Nat) := some (hmacNormKey key)

/-- HMAC-SHA256 digest bytes of `msg` under `key` (RFC 2104). -/
def hmacSha256 (key msg : List Nat) : List Nat :=
  let k := hmacNormKey key
  sha256 ((k.map (Nat.xor 92)) ++ sha256 ((k.map (Nat.xor 54)) ++ msg))

/-! ## UTF-8 bytes and lowercase hex, as `str::as_bytes` and `hex::encode` -/

/-- UTF-8 encoding of one Unicode scalar value. -/
def utf8Char (n : Nat) : List Nat :=
  if n < 128 then [n]
  else if n < 2048 then [192 + n / 64, 128 + n % 64]
  else if n < 65536 then [224 + n / 4096, 128 + n / 64 % 64, 128 + n % 64]
  else [240 + n / 262144, 128 + n / 4096 % 64, 128 + n / 64 % 64, 128 + n % 64]

/-- UTF-8 bytes of a string (Rust's `str::as_bytes`). -/
def utf8 (s : String) : List Nat := s.data.flatMap (fun c => utf8Char c.toNat)

/-- The lowercase hex alphabet used by `hex::encode`. -/
def hexAlphabet : List Char := "0123456789abcdef".data

/-- Hex digit of a nibble (out-of-range values fall back to `0`; digest bytes
are always in range). -/
def hexDigit (n : Nat) : Char := hexAlphabet.getD n '0'

/-- Lowercase hex encoding of a byte list (the `hex::encode` of the `hex`
crate): high nibble then low nibble of each byte. -/
def hexEncode (bs : List Nat) : String :=
  ⟨bs.flatMap (fun b => [hexDigit (b / 16), hexDigit (b % 16)])⟩

/-- The full signing primitive of `generate_token` (`main.rs` 214-218):
lowercase hex of the HMAC-SHA256 of the message bytes under the key bytes. -/
def sign (key msg : List Nat) : String := hexEncode (hmacSha256 key msg)

/-! ## Data model (`main.rs` 26-65) -/

/-- The authentication scheme literal (`main.rs` line 26). -/
def AUTH_SCHEMA_NAME : String := "NHSMESH"

/-- The signing key constant (`main.rs` line 27). -/
def SHARED_KEY : String := "TestKey"

/-- A mailbox endpoint: base URL, mailbox identifier, password
(`main.rs` 55-59). -/
structure Mailbox where
  url : String
  id : String
  password : String

/-- The ambient effects consulted inside `generate_token`: the UUID v4 drawn
by `Uuid::new_v4().to_string()` (line 203) and the wall-clock time formatted
by `Utc::now().format` with pattern year-month-day-hour-minute (line 206).
Making them explicit turns the effectful Rust function into a function of
this record. -/
structure Effects where
  new_v4 : String
  now : String

/-- A parsed JSON value (`serde_json::Value`). -/
inductive Json where
  | null
  | bool (b : Bool)
  | num (n : Int)
  | str (s : String)
  | arr (xs : List Json)
  | obj (fields : List (String × Json))

/-- Indexing a `serde_json::Value` with a string key: returns the field of an
object, and `Null` when the key is absent or the value is not an object. -/
def Json.index (j : Json) (key : String) : Json :=
  match j with
  | Json.obj fields => (fields.lookup key).getD Json.null
  | _ => Json.null

/-- A reqwest error as far as this client can observe it: the error built by
`Response::error_for_status` carries the response's status and URL (not the
body), and `Response::json` failures are decode errors. -/
inductive ReqwestError where
  | StatusError (status : Nat) (url : String)
  | DecodeError
deriving DecidableEq

/-- The client's error enumeration (`main.rs` 29-35).  `ParseIntError` can
carry no useful payload here; the header errors carry the offending text. -/
inductive MailboxError where
  | ReqwestError (e : ReqwestError)
  | HeaderValueError (value : String)
  | HeaderNameError (n : String)
  | ParseError
deriving DecidableEq

/-- An HTTP response as observed by this client: status code, request URL,
and the JSON decode of the body (`none` when the body is not valid JSON). -/
structure HttpResponse where
  status : Nat
  url : String
  body : Option Json

/-- `StatusCode::is_success`: 2xx. -/
def is_success (s : Nat) : Bool := 200 ≤ s && s < 300

/-- `StatusCode::is_client_error`: 4xx. -/
def is_client_error (s : Nat) : Bool := 400 ≤ s && s < 500

/-- `StatusCode::is_server_error`: 5xx. -/
def is_server_error (s : Nat) : Bool := 500 ≤ s && s < 600

/-- Models reqwest's `Response::error_for_status`: an error for 4xx and 5xx
statuses (carrying status and URL), the response itself otherwise - note that
1xx and 3xx statuses come back as `ok`. -/
def error_for_status (r : HttpResponse) : Except ReqwestError HttpResponse :=
  if is_client_error r.status || is_server_error r.status then
    Except.error (ReqwestError.StatusError r.status r.url)
  else Except.ok r

/-! ## Token construction (`main.rs` 202-224) -/

/-- The message handed to the signer, from the format expression at
`main.rs` 207-210: the colon-join of mailbox id, nonce, nonce count,
mailbox password and timestamp, in that order. -/
def hmac_msg (mailbox : Mailbox) (nonce : String) (nonce_count : Nat) (timestamp : String) : String :=
  mailbox.id ++ ":" ++ nonce ++ ":" ++ toString nonce_count ++ ":" ++ mailbox.password ++ ":" ++ timestamp

/-- The token generator (`main.rs` 202-224).  The nonce is the drawn UUID,
the nonce count is the literal `0`, the timestamp is the formatted clock
value; the digest is HMAC-SHA256 keyed by `SHARED_KEY` (the `expect` on
`new_from_slice` never fires, see `hmac_new_from_slice`), and the token is
the scheme literal, one space, and the five colon-joined fields. -/
def generate_token (e : Effects) (mailbox : Mailbox) : String :=
  let nonce := e.new_v4
  let nonce_count : Nat := 0
  let timestamp := e.now
  let hash_code := sign (utf8 SHARED_KEY) (utf8 (hmac_msg mailbox nonce nonce_count timestamp))
  AUTH_SCHEMA_NAME ++ " " ++ mailbox.id ++ ":" ++ nonce ++ ":" ++ toString nonce_count
    ++ ":" ++ timestamp ++ ":" ++ hash_code

/-- The header factory (`main.rs` 226-247): the six fixed headers, with the
freshly generated token under `authorization`.  The Rust function returns
`Ok` unconditionally; the `HashMap` is modelled as the association list in
insertion order (all six keys are distinct). -/
def generate_headers (e : Effects) (mailbox : Mailbox) :
    Except MailboxError (List (String × String)) :=
  let token := generate_token e mailbox
  Except.ok
    [("accept", "application/vnd.mesh.v2+json"),
     ("authorization", token),
     ("mex-clientversion", "ApiDocs==0.0.1"),
     ("mex-osarchitecture", "x86_64"),
     ("mex-osname", "Linux"),
     ("mex-osversion", "#44~18.04.2-Ubuntu")]

/-! ## Transport-level header validation (the `http` crate's checks) -/

/-- Validity of one byte of a header value, as checked by
`HeaderValue::from_str`: horizontal tab, or a byte that is at least 32 and
not 127 (DEL). -/
def valid_header_value_byte (b : Nat) : Bool := b == 9 || (32 ≤ b && b != 127)

/-- Validity of a header value string: every UTF-8 byte must be valid. -/
def valid_header_value (s : String) : Bool := (s |> utf8).all valid_header_value_byte

/-- Validity of one character of a header name, as checked by
`HeaderName::from_str`: letters (uppercase are normalised), digits, and the
RFC 7230 token specials (the quote and backtick characters are written by
code point). -/
def valid_header_name_char (c : Char) : Bool :=
  c.isLower || c.isUpper || c.isDigit ||
  c ∈ "!#$%&*+-.^_|~".data || c = Char.ofNat 39 || c = Char.ofNat 96

/-- Validity of a header name: nonempty and all characters valid. -/
def valid_header_name (s : String) : Bool := !s.data.isEmpty && s.data.all valid_header_name_char

/-- The header-map construction loop of `handshake` (`main.rs` 264-270):
each name is parsed with `?` and each value converted with `?`, so the first
invalid name or value aborts the whole request with the corresponding typed
error. -/
def build_header_map : List (String × String) → Except MailboxError (List (String × String))
  | [] => Except.ok []
  | (k, v) :: rest =>
      if valid_header_name k then
        if valid_header_value v then (build_header_map rest).map (fun m => (k, v) :: m)
        else Except.error (MailboxError.HeaderValueError v)
      else Except.error (MailboxError.HeaderNameError k)

/-- The header-map construction loop of `get_message_count` (`main.rs`
288-294): the name parse is followed by `.unwrap()` - an invalid name is a
panic, modelled as `none` - while the value conversion still uses `?`. -/
def build_header_map_unwrap : List (String × String) → Option (Except MailboxError (List (String × String)))
  | [] => some (Except.ok [])
  | (k, v) :: rest =>
      if valid_header_name k then
        if valid_header_value v then
          (build_header_map_unwrap rest).map (Except.map (fun m => (k, v) :: m))
        else some (Except.error (MailboxError.HeaderValueError v))
      else none

/-! ## The three operations (`main.rs` 249-307) -/

/-- The URL requested by `health_check` (`main.rs` 250); the request carries
no headers at all - the `get` builder is sent directly. -/
def health_check_url (mailbox : Mailbox) : String := mailbox.url ++ "/health"

/-- Response handling of `health_check` (`main.rs` 249-259): on a 2xx
status the JSON body is returned (a body that fails to decode is a reqwest
error); otherwise the function returns
`Err(response.error_for_status().unwrap_err())` - which for a status outside
4xx/5xx calls `unwrap_err` on an `Ok` and panics (`none`). -/
def health_check (mailbox : Mailbox) (response : HttpResponse) : Option (Except ReqwestError Json) :=
  let _url := health_check_url mailbox
  if is_success response.status then
    match response.body with
    | some j => some (Except.ok j)
    | none => some (Except.error ReqwestError.DecodeError)
  else
    match error_for_status response with
    | Except.error e => some (Except.error e)
    | Except.ok _ => none

/-- The URL requested by `handshake` (`main.rs` 262). -/
def handshake_url (mailbox : Mailbox) : String := mailbox.url ++ "/messageexchange/" ++ mailbox.id

/-- `handshake` (`main.rs` 261-283): build headers, build the header map
(typed errors on invalid names or values), send, and classify the response;
the non-2xx branch has the same `unwrap_err` panic as `health_check`. -/
def handshake (e : Effects) (mailbox : Mailbox) (response : HttpResponse) :
    Option (Except MailboxError HttpResponse) :=
  let _url := handshake_url mailbox
  match generate_headers e mailbox with
  | Except.error er => some (Except.error er)
  | Except.ok headers =>
    match build_header_map headers with
    | Except.error er => some (Except.error er)
    | Except.ok _header_map =>
      if is_success response.status then some (Except.ok response)
      else match error_for_status response with
        | Except.error er => some (Except.error (MailboxError.ReqwestError er))
        | Except.ok _ => none

/-- The URL requested by `get_message_count` (`main.rs` 286). -/
def get_message_count_url (mailbox : Mailbox) : String :=
  mailbox.url ++ "/messageexchange/" ++ mailbox.id ++ "/inbox"

/-- The header phase of `get_message_count` (`main.rs` 287-294): headers from
the factory, then the loop with the unchecked name parse. -/
def get_message_count_header_map (e : Effects) (mailbox : Mailbox) :
    Option (Except MailboxError (List (String × String))) :=
  match generate_headers e mailbox with
  | Except.error er => some (Except.error er)
  | Except.ok headers => build_header_map_unwrap headers

/-- `get_message_count` (`main.rs` 285-307): like `handshake`, but with the
unchecked header-name parse in the loop. -/
def get_message_count (e : Effects) (mailbox : Mailbox) (response : HttpResponse) :
    Option (Except MailboxError HttpResponse) :=
  let _url := get_message_count_url mailbox
  match get_message_count_header_map e mailbox with
  | none => none
  | some (Except.error er) => some (Except.error er)
  | some (Except.ok _header_map) =>
      if is_success response.status then some (Except.ok response)
      else match error_for_status response with
        | Except.error er => some (Except.error (MailboxError.ReqwestError er))
        | Except.ok _ => none

/-! ## Parsing the token back (the grammar of the specification) -/

/-- Split a character list at every occurrence of a separator (the resulting
list always has one more group than there are separators). -/
def splitCh (sep : Char) : List Char → List (List Char)
  | [] => [[]]
  | c :: cs =>
      if c = sep then [] :: splitCh sep cs
      else match splitCh sep cs with
        | [] => [[c]]
        | g :: gs => (c :: g) :: gs

/-- The token starts with the scheme literal followed by exactly one
space. -/
def auth_scheme_ok (s : String) : Bool :=
  s.data.take (AUTH_SCHEMA_NAME.length + 1) == (AUTH_SCHEMA_NAME ++ " ").data

/-- The colon-delimited fields after the scheme and the space. -/
def auth_fields (s : String) : List (List Char) :=
  splitCh ':' (s.data.drop (AUTH_SCHEMA_NAME.length + 1))

/-- Lookup of one header in the factory's result. -/
def headers_lookup (r : Except MailboxError (List (String × String))) (k : String) : Option String :=
  match r with
  | Except.ok hs => hs.lookup k
  | Except.error _ => none

/-! ## Helper lemmas -/

/-- String concatenation concatenates the character lists. -/
theorem string_data_append (s t : String) : (s ++ t).data = s.data ++ t.data := rfl

/-- A hex digit is always drawn from the lowercase hex alphabet. -/
theorem hexDigit_mem (n : Nat) : hexDigit n ∈ hexAlphabet := by
  rcases Nat.lt_or_ge n 16 with h | h
  · interval_cases n <;> decide
  · have hd : hexDigit n = '0' := by
      show hexAlphabet.getD n '0' = '0'
      exact List.getD_eq_default _ _ (by simpa [hexAlphabet] using h)
    rw [hd]
    decide

/-- Every character of a hex encoding is a lowercase hex character. -/
theorem hexEncode_mem (bs : List Nat) : ∀ c ∈ (hexEncode bs).data, c ∈ hexAlphabet := by
  intro c hc
  simp only [hexEncode] at hc
  rcases List.mem_flatMap.mp hc with ⟨b, _, hcb⟩
  simp only [List.mem_cons, List.not_mem_nil, or_false] at hcb
  rcases hcb with h | h
  · exact h ▸ hexDigit_mem _
  · exact h ▸ hexDigit_mem _

/-- Every character of a signature is a lowercase hex character. -/
theorem sign_mem (key msg : List Nat) : ∀ c ∈ (sign key msg).data, c ∈ hexAlphabet :=
  hexEncode_mem _

/-- A signature never contains a colon. -/
theorem sign_no_colon (key msg : List Nat) : (':' : Char) ∉ (sign key msg).data := by
  intro h
  have := sign_mem key msg _ h
  revert this
  decide

/-- A hex encoding has two characters per byte. -/
theorem hexEncode_data_length (bs : List Nat) : (hexEncode bs).data.length = 2 * bs.length := by
  induction bs with
  | nil => rfl
  | cons b tl ih =>
      simp only [hexEncode, List.flatMap_cons] at *
      simp [ih, Nat.mul_succ]

/-- A SHA-256 digest is 32 bytes for every message. -/
theorem sha256_length (msg : List Nat) : (sha256 msg).length = 32 := by
  simp [sha256, hash8Bytes, wordBytes]

/-- An HMAC-SHA256 digest is 32 bytes for every key and message. -/
theorem hmacSha256_length (key msg : List Nat) : (hmacSha256 key msg).length = 32 := by
  unfold hmacSha256
  exact sha256_length _

/-- A signature is 64 characters for every key and message. -/
theorem sign_length (key msg : List Nat) : (sign key msg).length = 64 := by
  show (sign key msg).data.length = 64
  unfold sign
  rw [hexEncode_data_length, hmacSha256_length]

/-- Splitting a separator-free list yields the one group. -/
theorem splitCh_append_of_notMem (sep : Char) (l1 l2 g : List Char) (gs : List (List Char))
    (h : sep ∉ l1) (h2 : splitCh sep l2 = g :: gs) :
    splitCh sep (l1 ++ l2) = (l1 ++ g) :: gs := by
  induction l1 with
  | nil => simpa using h2
  | cons c tl ih =>
      have hc : ¬(c = sep) := by
        intro hcs
        exact h (hcs ▸ List.mem_cons_self c tl)
      have h' : sep ∉ tl := fun hm => h (List.mem_cons_of_mem _ hm)
      simp only [List.cons_append, splitCh, if_neg hc]
      rw [show tl.append l2 = tl ++ l2 from rfl, ih h']

/-- Splitting a list without the separator gives exactly that list. -/
theorem splitCh_of_notMem (sep : Char) (l : List Char) (h : sep ∉ l) :
    splitCh sep l = [l] := by
  have := splitCh_append_of_notMem sep l [] [] [] h rfl
  simpa using this

/-- Splitting a separator-free block followed by a separator peels one group. -/
theorem splitCh_sep_block (sep : Char) (l1 rest : List Char) (h : sep ∉ l1) :
    splitCh sep (l1 ++ sep :: rest) = l1 :: splitCh sep rest := by
  have hsep : splitCh sep (sep :: rest) = [] :: splitCh sep rest := by
    simp [splitCh]
  have := splitCh_append_of_notMem sep l1 (sep :: rest) [] (splitCh sep rest) h hsep
  simpa using this

/-- One non-separator character before a separator peels a singleton group. -/
theorem splitCh_char_sep (sep c : Char) (rest : List Char) (h : ¬(c = sep)) :
    splitCh sep (c :: sep :: rest) = [c] :: splitCh sep rest := by
  have := splitCh_sep_block sep [c] rest (fun hm => h (List.eq_of_mem_singleton hm).symm)
  simpa using this

/-- The characters of a generated token: the scheme and space, then the five
colon-joined fields. -/
theorem generate_token_data (e : Effects) (mb : Mailbox) :
    (generate_token e mb).data
      = "NHSMESH ".data
        ++ (mb.id.data ++ ':' :: (e.new_v4.data ++ ':' :: '0' :: ':' :: (e.now.data ++ ':'
          :: (sign (utf8 SHARED_KEY) (utf8 (hmac_msg mb e.new_v4 0 e.now))).data))) := by
  have h1 : "NHSMESH".data = ['N', 'H', 'S', 'M', 'E', 'S', 'H'] := rfl
  have h2 : " ".data = [' '] := rfl
  have h3 : "NHSMESH ".data = ['N', 'H', 'S', 'M', 'E', 'S', 'H', ' '] := rfl
  have h4 : ":".data = [':'] := rfl
  have h5 : (toString (0 : Nat)).data = ['0'] := rfl
  simp only [generate_token, AUTH_SCHEMA_NAME, string_data_append, h1, h2, h3, h4, h5,
    List.cons_append, List.nil_append, List.append_assoc]

/-- Every token starts with the scheme literal and exactly one space. -/
theorem auth_scheme_ok_token (e : Effects) (mb : Mailbox) :
    auth_scheme_ok (generate_token e mb) = true := by
  unfold auth_scheme_ok
  rw [generate_token_data]
  rw [show (AUTH_SCHEMA_NAME.length + 1) = ("NHSMESH ".data).length from rfl, List.take_left]
  decide

/-- The colon fields of a token whose id, nonce and timestamp are
colon-free: the id, the nonce, the `0`, the timestamp, and the digest. -/
theorem auth_fields_token (e : Effects) (mb : Mailbox)
    (hid : (':' : Char) ∉ mb.id.data) (hn : (':' : Char) ∉ e.new_v4.data)
    (ht : (':' : Char) ∉ e.now.data) :
    auth_fields (generate_token e mb)
      = [mb.id.data, e.new_v4.data, ['0'], e.now.data,
         (sign (utf8 SHARED_KEY) (utf8 (hmac_msg mb e.new_v4 0 e.now))).data] := by
  unfold auth_fields
  rw [generate_token_data]
  rw [show (AUTH_SCHEMA_NAME.length + 1) = ("NHSMESH ".data).length from rfl, List.drop_left]
  rw [splitCh_sep_block ':' _ _ hid, splitCh_sep_block ':' _ _ hn,
    splitCh_char_sep ':' '0' _ (by decide), splitCh_sep_block ':' _ _ ht,
    splitCh_of_notMem ':' _ (sign_no_colon _ _)]

/-! ## Claims -/

/-- C1: the message handed to the signer is the colon-join, in order, of
mailbox id, nonce, nonce count, mailbox password and timestamp; the token
generator signs exactly that join of its drawn nonce and timestamp; and for
mailbox id X26ABC1, nonce abc, nonce count 0, password password and
timestamp 202401010000 the signed message is the expected golden string. -/
theorem C1_signed_message_join (mb : Mailbox) (e : Effects) (nonce ts : String) (nc : Nat) :
    hmac_msg mb nonce nc ts
      = mb.id ++ ":" ++ nonce ++ ":" ++ toString nc ++ ":" ++ mb.password ++ ":" ++ ts
    ∧ generate_token e mb
      = AUTH_SCHEMA_NAME ++ " " ++ mb.id ++ ":" ++ e.new_v4 ++ ":" ++ "0" ++ ":" ++ e.now
        ++ ":" ++ sign (utf8 SHARED_KEY) (utf8 (hmac_msg mb e.new_v4 0 e.now))
    ∧ hmac_msg ⟨"https://localhost:8700", "X26ABC1", "password"⟩ "abc" 0 "202401010000"
      = "X26ABC1:abc:0:password:202401010000" :=
  ⟨rfl, rfl, by decide⟩

/-- C2: the authorization token is the scheme literal NHSMESH, exactly one
space, and the five colon-delimited fields mailbox id, nonce, nonce count,
timestamp and hex digest, with the nonce count field always the digit 0. -/
theorem C2_token_grammar (e : Effects) (mb : Mailbox) :
    generate_token e mb
      = AUTH_SCHEMA_NAME ++ " " ++ mb.id ++ ":" ++ e.new_v4 ++ ":" ++ "0" ++ ":" ++ e.now
        ++ ":" ++ sign (utf8 SHARED_KEY) (utf8 (hmac_msg mb e.new_v4 0 e.now))
    ∧ AUTH_SCHEMA_NAME = "NHSMESH"
    ∧ auth_scheme_ok (generate_token e mb) = true :=
  ⟨rfl, rfl, auth_scheme_ok_token e mb⟩

/-- C3: the signer is HMAC-SHA256 over the message bytes under the key
bytes, hex-encoded in lowercase: the digest is the full 32 bytes, the hex
output is exactly 64 characters, and every character is a lowercase hex
character, for every key and message. -/
theorem C3_sign_is_hmac_hex (key msg : List Nat) :
    (hmacSha256 key msg).length = 32
    ∧ sign key msg = hexEncode (hmacSha256 key msg)
    ∧ (sign key msg).length = 64
    ∧ ∀ c ∈ (sign key msg).data, c ∈ hexAlphabet :=
  ⟨hmacSha256_length key msg, rfl, sign_length key msg, sign_mem key msg⟩

/-- C3 witness: the properties evaluated at a concrete key and message. -/
theorem C3_sign_is_hmac_hex_witness :
    (hmacSha256 (utf8 "TestKey") (utf8 "abc")).length = 32
    ∧ (sign (utf8 "TestKey") (utf8 "abc")).length = 64 :=
  ⟨(C3_sign_is_hmac_hex (utf8 "TestKey") (utf8 "abc")).1,
   (C3_sign_is_hmac_hex (utf8 "TestKey") (utf8 "abc")).2.2.1⟩

/-- C10: the password is confined to the digest: for any two mailboxes
identical except in their password, under the same draws, both tokens are
one and the same password-independent prefix - the scheme, the id, the
nonce, the 0 and the timestamp, colon-joined - followed by their respective
digests, so the tokens can differ only in the final hex-digest field and
the plaintext password is never emitted as a field; when the id, nonce and
timestamp are colon-free the agreement also holds field-by-field on the
parsed token. -/
theorem C10_password_only_in_digest (e : Effects) (url mid pw1 pw2 : String) :
    generate_token e ⟨url, mid, pw1⟩
      = AUTH_SCHEMA_NAME ++ " " ++ mid ++ ":" ++ e.new_v4 ++ ":" ++ "0" ++ ":" ++ e.now
        ++ ":" ++ sign (utf8 SHARED_KEY) (utf8 (hmac_msg ⟨url, mid, pw1⟩ e.new_v4 0 e.now))
    ∧ generate_token e ⟨url, mid, pw2⟩
      = AUTH_SCHEMA_NAME ++ " " ++ mid ++ ":" ++ e.new_v4 ++ ":" ++ "0" ++ ":" ++ e.now
        ++ ":" ++ sign (utf8 SHARED_KEY) (utf8 (hmac_msg ⟨url, mid, pw2⟩ e.new_v4 0 e.now))
    ∧ ((':' : Char) ∉ mid.data → (':' : Char) ∉ e.new_v4.data → (':' : Char) ∉ e.now.data →
        (auth_fields (generate_token e ⟨url, mid, pw1⟩)).take 4
          = (auth_fields (generate_token e ⟨url, mid, pw2⟩)).take 4) := by
  refine ⟨rfl, rfl, fun hid hn ht => ?_⟩
  rw [auth_fields_token e ⟨url, mid, pw1⟩ hid hn ht,
      auth_fields_token e ⟨url, mid, pw2⟩ hid hn ht]
  simp only [List.take_succ_cons, List.take_zero]

/-- C10 witness: the field agreement at two concrete mailboxes differing
only in the password. -/
theorem C10_password_only_in_digest_witness :
    (auth_fields (generate_token ⟨"abc", "202401010000"⟩
        ⟨"https://localhost:8700", "X26ABC1", "password"⟩)).take 4
      = (auth_fields (generate_token ⟨"abc", "202401010000"⟩
        ⟨"https://localhost:8700", "X26ABC1", "other"⟩)).take 4 :=
  (C10_password_only_in_digest ⟨"abc", "202401010000"⟩ "https://localhost:8700" "X26ABC1"
    "password" "other").2.2 (by decide) (by decide) (by decide)

/-- C4 counterexample: the signing key is hardcoded.  At a concrete mailbox
the digest of the generated token is keyed by the literal TestKey - the
value of the constant SHARED_KEY - which is none of the externally supplied
configuration values (URL, id, password) nor the drawn nonce or timestamp,
so token generation does not sign with an externally supplied key. -/
theorem C4_counterexample :
    SHARED_KEY = "TestKey"
    ∧ generate_token ⟨"abc", "202401010000"⟩ ⟨"https://localhost:8700", "X26ABC1", "password"⟩
      = "NHSMESH " ++ "X26ABC1" ++ ":" ++ "abc" ++ ":" ++ "0" ++ ":" ++ "202401010000" ++ ":"
        ++ sign (utf8 "TestKey") (utf8 "X26ABC1:abc:0:password:202401010000")
    ∧ ("TestKey" : String) ≠ "https://localhost:8700"
    ∧ ("TestKey" : String) ≠ "X26ABC1"
    ∧ ("TestKey" : String) ≠ "password"
    ∧ ("TestKey" : String) ≠ "abc"
    ∧ ("TestKey" : String) ≠ "202401010000" := by
  refine ⟨rfl, ?_, by decide, by decide, by decide, by decide, by decide⟩
  have h : hmac_msg ⟨"https://localhost:8700", "X26ABC1", "password"⟩ "abc" 0 "202401010000"
      = "X26ABC1:abc:0:password:202401010000" := by decide
  simp only [generate_token, SHARED_KEY, h]
  congr 1

/-- C4 amended: the base URL, mailbox id and password are the configuration
carried by the mailbox, but the signing key is not externally supplied: it
is the hardcoded constant SHARED_KEY, whose value is TestKey, and every
token is signed with exactly that constant. -/
theorem C4_amended_hardcoded_key (e : Effects) (mb : Mailbox) :
    generate_token e mb
      = AUTH_SCHEMA_NAME ++ " " ++ mb.id ++ ":" ++ e.new_v4 ++ ":" ++ "0" ++ ":" ++ e.now
        ++ ":" ++ sign (utf8 "TestKey") (utf8 (hmac_msg mb e.new_v4 0 e.now))
    ∧ SHARED_KEY = "TestKey" :=
  ⟨rfl, rfl⟩

/-- C5 counterexample: token building is not a function of caller-supplied
inputs alone.  The same mailbox under two different ambient draws of the
nonce yields two different tokens, so the output is not fully determined by
what the caller passes in - `generate_token` itself consults the randomness
source and the wall clock. -/
theorem C5_counterexample :
    generate_token ⟨"aaa", "202401010000"⟩ ⟨"https://localhost:8700", "X26ABC1", "password"⟩
    ≠ generate_token ⟨"bbb", "202401010000"⟩ ⟨"https://localhost:8700", "X26ABC1", "password"⟩ := by
  intro hEq
  exact absurd (congrArg (fun s => s.data.take 17) hEq) (by decide)

/-- C5 amended: `generate_token` draws the nonce and the timestamp itself;
with those draws made explicit, the rest is deterministic - the token
depends only on the mailbox id, the mailbox password, the drawn nonce and
the drawn timestamp. -/
theorem C5_amended_deterministic (e1 e2 : Effects) (mb1 mb2 : Mailbox)
    (hid : mb1.id = mb2.id) (hpw : mb1.password = mb2.password)
    (hn : e1.new_v4 = e2.new_v4) (ht : e1.now = e2.now) :
    generate_token e1 mb1 = generate_token e2 mb2 := by
  simp only [generate_token, hmac_msg, hid, hpw, hn, ht]

/-- C5 witness: two mailboxes differing only in the URL, same draws, same
token. -/
theorem C5_amended_deterministic_witness :
    generate_token ⟨"abc", "202401010000"⟩ ⟨"https://localhost:8700", "X26ABC1", "password"⟩
    = generate_token ⟨"abc", "202401010000"⟩ ⟨"https://other.example:1", "X26ABC1", "password"⟩ :=
  C5_amended_deterministic _ _ _ _ rfl rfl rfl rfl

set_option maxRecDepth 100000 in
/-- C6 counterexample: a mailbox id containing a colon breaks the five-field
parse - the authorization value then splits into six colon-delimited fields
after the scheme, not five. -/
theorem C6_counterexample :
    (auth_fields (generate_token ⟨"00000000-0000-0000-0000-000000000000", "202401010000"⟩
        ⟨"https://localhost:8700", "A:B", "password"⟩)).length = 6 := by
  decide

/-- C6 amended: the header set always contains all six fixed headers with
their fixed values and the generated token under authorization; and when
the mailbox id is colon-free (the UUID nonce, the minute timestamp and the
hex digest never contain a colon; an id containing one yields extra fields)
the authorization value parses back into the scheme literal plus exactly
five colon-delimited fields. -/
theorem C6_amended_headers (e : Effects) (mb : Mailbox) :
    headers_lookup (generate_headers e mb) "accept" = some "application/vnd.mesh.v2+json"
    ∧ headers_lookup (generate_headers e mb) "authorization" = some (generate_token e mb)
    ∧ headers_lookup (generate_headers e mb) "mex-clientversion" = some "ApiDocs==0.0.1"
    ∧ headers_lookup (generate_headers e mb) "mex-osarchitecture" = some "x86_64"
    ∧ headers_lookup (generate_headers e mb) "mex-osname" = some "Linux"
    ∧ headers_lookup (generate_headers e mb) "mex-osversion" = some "#44~18.04.2-Ubuntu"
    ∧ auth_scheme_ok (generate_token e mb) = true
    ∧ ((':' : Char) ∉ mb.id.data → (':' : Char) ∉ e.new_v4.data → (':' : Char) ∉ e.now.data →
        (auth_fields (generate_token e mb)).length = 5) := by
  refine ⟨rfl, rfl, rfl, rfl, rfl, rfl, auth_scheme_ok_token e mb, fun hid hn ht => ?_⟩
  rw [auth_fields_token e mb hid hn ht]
  rfl

/-- C6 witness: the header set and the five-field parse at a concrete
mailbox and draw. -/
theorem C6_amended_headers_witness :
    headers_lookup (generate_headers ⟨"00000000-0000-0000-0000-000000000000", "202401010000"⟩
        ⟨"https://localhost:8700", "X26ABC1", "password"⟩) "accept"
      = some "application/vnd.mesh.v2+json"
    ∧ (auth_fields (generate_token ⟨"00000000-0000-0000-0000-000000000000", "202401010000"⟩
        ⟨"https://localhost:8700", "X26ABC1", "password"⟩)).length = 5 :=
  ⟨(C6_amended_headers _ _).1,
   (C6_amended_headers _ _).2.2.2.2.2.2.2 (by decide) (by decide) (by decide)⟩

/-- C7: health check behaviour evaluated.  The URL is baseUrl/health and
the request carries no headers (`main.rs` 250 sends the bare `get`).  A 500
response yields the status error (carrying status and URL - the two
different bodies give the very same error value, so the body is not
carried).  A 200 response with a JSON body whose status field is OK yields
that payload.  But a 304 response - non-2xx yet outside 4xx/5xx - drives
`unwrap_err` on an `Ok` and panics (`none`), although the claim promises an
error value and no panic on every non-2xx response. -/
theorem C7_health_check_behavior :
    health_check_url ⟨"https://localhost:8700", "X26ABC1", "password"⟩
      = "https://localhost:8700/health"
    ∧ health_check ⟨"https://localhost:8700", "X26ABC1", "password"⟩
        ⟨500, "https://localhost:8700/health", some (Json.str "oops")⟩
      = some (Except.error (ReqwestError.StatusError 500 "https://localhost:8700/health"))
    ∧ health_check ⟨"https://localhost:8700", "X26ABC1", "password"⟩
        ⟨500, "https://localhost:8700/health", some (Json.str "another body")⟩
      = health_check ⟨"https://localhost:8700", "X26ABC1", "password"⟩
          ⟨500, "https://localhost:8700/health", some (Json.str "oops")⟩
    ∧ health_check ⟨"https://localhost:8700", "X26ABC1", "password"⟩
        ⟨200, "https://localhost:8700/health", some (Json.obj [("status", Json.str "OK")])⟩
      = some (Except.ok (Json.obj [("status", Json.str "OK")]))
    ∧ (Json.obj [("status", Json.str "OK")]).index "status" = Json.str "OK"
    ∧ health_check ⟨"https://localhost:8700", "X26ABC1", "password"⟩
        ⟨304, "https://localhost:8700/health", some Json.null⟩ = none :=
  ⟨rfl, rfl, rfl, rfl, rfl, rfl⟩

/-- C8 counterexample: the header factory checks nothing - for a mailbox id
containing a control character it still returns the full header set with
the offending token, although that token is not a valid transport header
value. -/
theorem C8_counterexample :
    generate_headers ⟨"abc", "202401010000"⟩ ⟨"https://localhost:8700", "A\nB", "password"⟩
      = Except.ok
          [("accept", "application/vnd.mesh.v2+json"),
           ("authorization", generate_token ⟨"abc", "202401010000"⟩
              ⟨"https://localhost:8700", "A\nB", "password"⟩),
           ("mex-clientversion", "ApiDocs==0.0.1"),
           ("mex-osarchitecture", "x86_64"),
           ("mex-osname", "Linux"),
           ("mex-osversion", "#44~18.04.2-Ubuntu")]
    ∧ valid_header_value (generate_token ⟨"abc", "202401010000"⟩
        ⟨"https://localhost:8700", "A\nB", "password"⟩) = false :=
  ⟨rfl, by decide⟩

/-- C8 amended: the validation lives in the clients, not the factory: when
a header value (here the token) fails transport-level validation, both
handshake and get_message_count return the header-value error for that
single request. -/
theorem C8_amended_validation_in_clients (e : Effects) (mb : Mailbox) (resp : HttpResponse)
    (h : valid_header_value (generate_token e mb) = false) :
    handshake e mb resp
      = some (Except.error (MailboxError.HeaderValueError (generate_token e mb)))
    ∧ get_message_count e mb resp
      = some (Except.error (MailboxError.HeaderValueError (generate_token e mb))) := by
  have hn1 : valid_header_name "accept" = true := by decide
  have hn2 : valid_header_name "authorization" = true := by decide
  have hv1 : valid_header_value "application/vnd.mesh.v2+json" = true := by decide
  refine ⟨?_, ?_⟩ <;>
    simp [handshake, get_message_count, get_message_count_header_map, generate_headers,
      build_header_map, build_header_map_unwrap, Except.map, hn1, hn2, hv1, h]

/-- C8 witness: the amended behaviour at a concrete mailbox whose id holds
a line feed. -/
theorem C8_amended_validation_in_clients_witness :
    valid_header_value (generate_token ⟨"abc", "202401010000"⟩
        ⟨"https://localhost:8700", "A\nB", "password"⟩) = false
    ∧ handshake ⟨"abc", "202401010000"⟩ ⟨"https://localhost:8700", "A\nB", "password"⟩
        ⟨200, "u", none⟩
      = some (Except.error (MailboxError.HeaderValueError
          (generate_token ⟨"abc", "202401010000"⟩
            ⟨"https://localhost:8700", "A\nB", "password"⟩))) :=
  ⟨by decide, (C8_amended_validation_in_clients _ _ _ (by decide)).1⟩

/-- A header list whose names are all valid never hits the unchecked name
parse, whatever the values are. -/
theorem build_header_map_unwrap_isSome (hs : List (String × String))
    (h : ∀ p ∈ hs, valid_header_name p.1 = true) :
    (build_header_map_unwrap hs).isSome = true := by
  induction hs with
  | nil => rfl
  | cons p tl ih =>
      obtain ⟨k, v⟩ := p
      have hk : valid_header_name k = true := h _ (List.mem_cons_self _ _)
      have htl : ∀ q ∈ tl, valid_header_name q.1 = true :=
        fun q hq => h q (List.mem_cons_of_mem _ hq)
      by_cases hv : valid_header_value v = true
      · have hsome := ih htl
        rcases ho : build_header_map_unwrap tl with _ | x
        · rw [ho] at hsome
          simp at hsome
        · simp [build_header_map_unwrap, hk, hv, ho]
      · simp [build_header_map_unwrap, hk, hv]

/-- C9: neither internal assertion can fire: the key-acceptance expect in
token generation never fails because HMAC-SHA256 accepts keys of any
length, and the unchecked header-name parse in get_message_count never
fails because the factory inserts only the six fixed valid names. -/
theorem C9_internal_assertions_unreachable :
    (∀ key : List Nat, (hmac_new_from_slice key).isSome = true)
    ∧ ∀ (e : Effects) (mb : Mailbox), (get_message_count_header_map e mb).isSome = true := by
  refine ⟨fun _ => rfl, fun e mb => build_header_map_unwrap_isSome _ ?_⟩
  intro p hp
  have ha : valid_header_name "authorization" = true := by decide
  simp only [List.mem_cons, List.not_mem_nil, or_false] at hp
  rcases hp with rfl | rfl | rfl | rfl | rfl | rfl
  · decide
  · exact ha
  · decide
  · decide
  · decide
  · decide
